import Mathlib

/-!
Shallow embedding of the durable periodic reminder/rotation engine of the
DiscordBot repository (cogs `bremind.py` and `presence.py`).

Timestamps and durations are integers, as in the Python source where
`int(time.time())` is used throughout.  Fallible external calls (channel
resolution, message sends, channel renames) are modelled through an
environment record; an exception raised by a send is modelled by the
environment reporting failure, and the `try/except: pass` structure of the
source is reflected by the step functions being total and leaving the state
unchanged on failure.  Persistence is modelled by explicit effect markers and
by serialisation functions translated from `to_dict`/`from_dict` and
`_save_state`/`_load_state`.
-/

/-- Generic substring helper: `startsWithL n h` is true when the char list
`n` comes first in `h` (models Python `str.startswith` on the suffix walk). -/
def startsWithL : List Char → List Char → Bool
  | [], _ => true
  | _ :: _, [] => false
  | a :: as, b :: bs => a == b && startsWithL as bs

/-- `occursIn n h` is true when the char list `n` occurs contiguously in `h`
(models the Python `needle in haystack` test). -/
def occursIn (needle : List Char) : List Char → Bool
  | [] => startsWithL needle []
  | h :: t => startsWithL needle (h :: t) || occursIn needle t

/-- Models Python `needle in hay` for strings. -/
def containsSub (hay needle : String) : Bool :=
  occursIn needle.toList hay.toList

/-- Python `str.lower` as a kernel-computable character map
(`Char.toLower` lowercases the ASCII range; all strings the repository
lowercases and compares are ASCII). -/
def strLower (s : String) : String := String.mk (s.data.map Char.toLower)

/-- The whitespace characters removed by Python `str.strip`. -/
def isPySpace (c : Char) : Bool :=
  c == ' ' || c == '\t' || c == '\n' || c == '\r' || c == '\x0b' || c == '\x0c'

/-- Drop leading whitespace characters. -/
def dropSpaces : List Char → List Char
  | [] => []
  | c :: cs => if isPySpace c then dropSpaces cs else c :: cs

/-- Python `str.strip`: remove leading and trailing whitespace. -/
def strTrim (s : String) : String :=
  String.mk (dropSpaces ((dropSpaces s.data).reverse)).reverse

namespace Bremind

/-- `DISBOARD_BOT_ID` constant of cogs/bremind.py. -/
def DISBOARD_BOT_ID : Int := 302050872383242240

/-- `DEFAULT_COOLDOWN = 2 * 60 * 60` of cogs/bremind.py. -/
def DEFAULT_COOLDOWN : Int := 2 * 60 * 60

/-- The `DEFAULT_BUMP_REPLY` template string of cogs/bremind.py. -/
def DEFAULT_BUMP_REPLY : String :=
  "Thanks {user} for bumping! Next bump in {minutes} minutes."

/-- The embed configuration dict of the source (`DEFAULT_EMBED` layout). -/
structure EmbedCfg where
  title : Option String
  description : Option String
  color : Int
  thumbnail : Option String
  footer : Option String
deriving Repr, DecidableEq

/-- `DEFAULT_EMBED` of cogs/bremind.py. -/
def DEFAULT_EMBED : EmbedCfg :=
  { title := some "🔔 It\x27s time to bump!"
    description := some "Please do /bump to bump the server again."
    color := 0x5865F2
    thumbnail := none
    footer := some "" }

/-- The rename configuration dict of the source (`DEFAULT_RENAME` layout). -/
structure RenameCfg where
  channel_id : Option Int
  ready_name : String
  cooldown_name : String
deriving Repr, DecidableEq

/-- `DEFAULT_RENAME` of cogs/bremind.py. -/
def DEFAULT_RENAME : RenameCfg :=
  { channel_id := none
    ready_name := "bump-ready"
    cooldown_name := "bump-wait-{minutes}m" }

/-- The `GuildState` dataclass of cogs/bremind.py, with the dataclass
defaults of the source. -/
structure GuildState where
  enabled : Bool := true
  bump_channel_id : Option Int := none
  ping_role_id : Option Int := none
  cooldown_s : Int := DEFAULT_COOLDOWN
  last_bump_ts : Option Int := none
  reminder_sent_for_ts : Option Int := none
  embed : EmbedCfg := DEFAULT_EMBED
  rename : RenameCfg := DEFAULT_RENAME
  bump_reply_template : Option String := some DEFAULT_BUMP_REPLY
deriving Repr, DecidableEq

/-- The serialised form of the embed dict: a field is `none` when the JSON
key is absent (so `dict.get` and `setdefault` take the default). -/
structure StoredEmbed where
  title : Option (Option String)
  description : Option (Option String)
  color : Option Int
  thumbnail : Option (Option String)
  footer : Option (Option String)
deriving Repr, DecidableEq

/-- The serialised form of the rename dict, keys optional as in JSON. -/
structure StoredRename where
  channel_id : Option (Option Int)
  ready_name : Option String
  cooldown_name : Option String
deriving Repr, DecidableEq

/-- One per-guild record of the bremind.json store; an outer `none` models a
missing key, so `d.get(key, default)` is `Option.getD`. -/
structure StoredGuild where
  enabled : Option Bool
  bump_channel_id : Option (Option Int)
  ping_role_id : Option (Option Int)
  cooldown_s : Option Int
  last_bump_ts : Option (Option Int)
  reminder_sent_for_ts : Option (Option Int)
  embed : Option StoredEmbed
  rename : Option StoredRename
  bump_reply_template : Option (Option String)
deriving Repr, DecidableEq

/-- The `setdefault` loop of `GuildState.from_dict` over the embed keys. -/
def fillEmbed (e : StoredEmbed) : EmbedCfg :=
  { title := e.title.getD DEFAULT_EMBED.title
    description := e.description.getD DEFAULT_EMBED.description
    color := e.color.getD DEFAULT_EMBED.color
    thumbnail := e.thumbnail.getD DEFAULT_EMBED.thumbnail
    footer := e.footer.getD DEFAULT_EMBED.footer }

/-- The `setdefault` loop of `GuildState.from_dict` over the rename keys. -/
def fillRename (r : StoredRename) : RenameCfg :=
  { channel_id := r.channel_id.getD DEFAULT_RENAME.channel_id
    ready_name := r.ready_name.getD DEFAULT_RENAME.ready_name
    cooldown_name := r.cooldown_name.getD DEFAULT_RENAME.cooldown_name }

/-- `GuildState.from_dict` of cogs/bremind.py (lines 79-95): every field is
read with `d.get(key, default)`; missing embed/rename dicts fall back to the
defaults, present ones have missing keys filled by `setdefault`. -/
def GuildState.from_dict (d : StoredGuild) : GuildState :=
  { enabled := d.enabled.getD true
    bump_channel_id := d.bump_channel_id.getD none
    ping_role_id := d.ping_role_id.getD none
    cooldown_s := d.cooldown_s.getD DEFAULT_COOLDOWN
    last_bump_ts := d.last_bump_ts.getD none
    reminder_sent_for_ts := d.reminder_sent_for_ts.getD none
    embed := match d.embed with
      | none => DEFAULT_EMBED
      | some e => fillEmbed e
    rename := match d.rename with
      | none => DEFAULT_RENAME
      | some r => fillRename r
    bump_reply_template := d.bump_reply_template.getD (some DEFAULT_BUMP_REPLY) }

/-- `GuildState.to_dict` of cogs/bremind.py (lines 97-108): writes every key. -/
def GuildState.to_dict (st : GuildState) : StoredGuild :=
  { enabled := some st.enabled
    bump_channel_id := some st.bump_channel_id
    ping_role_id := some st.ping_role_id
    cooldown_s := some st.cooldown_s
    last_bump_ts := some st.last_bump_ts
    reminder_sent_for_ts := some st.reminder_sent_for_ts
    embed := some { title := some st.embed.title
                    description := some st.embed.description
                    color := some st.embed.color
                    thumbnail := some st.embed.thumbnail
                    footer := some st.embed.footer }
    rename := some { channel_id := some st.rename.channel_id
                     ready_name := some st.rename.ready_name
                     cooldown_name := some st.rename.cooldown_name }
    bump_reply_template := some st.bump_reply_template }

/-- Observable side effects of the bremind cog on the outside world. -/
inductive Effect where
  | chanEdit (chan : Int) (name : String)
  | reminderSent (chan : Int) (rolePing : Option Int)
  | reminderFailed (chan : Int)
  | persist
  | bumpReplySent (chan : Int)
  | bumpReplyFailed (chan : Int)
deriving Repr, DecidableEq

/-- True exactly on a successful reminder send (the notifying effect). -/
def isSent : Effect → Bool
  | .reminderSent _ _ => true
  | _ => false

/-- True on any outgoing chat-message call (reminder or bump reply). -/
def isMsgSend : Effect → Bool
  | .reminderSent _ _ => true
  | .reminderFailed _ => true
  | .bumpReplySent _ => true
  | .bumpReplyFailed _ => true
  | _ => false

/-- Number of successful reminder sends in an effect trace. -/
def countSent (l : List Effect) : Nat := l.countP isSent

/-- The external world seen by one `_tick` iteration for one guild:
`guild.get_channel`, `guild.system_channel`, `guild.get_role`, the current
name of a resolvable renameable channel, and whether `chan.send` succeeds
(a `false` models the `discord.Forbidden` / `discord.HTTPException` paths). -/
structure TickEnv where
  getChannel : Int → Option Int
  systemChannel : Option Int
  getRole : Int → Option Int
  renameChannel : Int → Option String
  sendOk : Bool

/-- Python string truthiness fallback `s or d` for strings. -/
def strOr (s d : String) : String := if s = "" then d else s

/-- Ceiling minutes `-(-seconds_left // 60)` of `_maybe_rename` (line 300),
with Python floor division embedded as `Int.fdiv`. -/
def ceilMinutes (secondsLeft : Int) : Int := -((-secondsLeft).fdiv 60)

/-- Desired channel name computed by `_maybe_rename` (lines 296-302). -/
def renameDesired (st : GuildState) (ready : Bool) (secondsLeft : Int) : String :=
  if ready then (strOr st.rename.ready_name DEFAULT_RENAME.ready_name).take 100
  else
    let minutes := max 1 (ceilMinutes secondsLeft)
    ((strOr st.rename.cooldown_name DEFAULT_RENAME.cooldown_name).replace
      "{minutes}" (toString minutes)).take 100

/-- `_maybe_rename` of cogs/bremind.py (lines 285-308): no rename channel,
an unresolvable channel, or an already matching name produce no call. -/
def renameOpt (env : TickEnv) (st : GuildState) (ready : Bool)
    (secondsLeft : Int) : Option (Int × String) :=
  match st.rename.channel_id with
  | none => none
  | some cid =>
    if cid = 0 then none
    else
      match env.renameChannel cid with
      | none => none
      | some cur =>
        let desired := renameDesired st ready secondsLeft
        if cur = desired then none else some (cid, desired)

/-- The effect trace of `_maybe_rename`: at most one channel-edit attempt. -/
def renameEffects (env : TickEnv) (st : GuildState) (ready : Bool)
    (secondsLeft : Int) : List Effect :=
  (renameOpt env st ready secondsLeft).toList.map (fun p => Effect.chanEdit p.1 p.2)

/-- Channel resolution of `_tick` (lines 377-381): the configured bump
channel if set (Python truthiness, so id 0 counts as unset) and resolvable,
else the guild system channel. -/
def resolveChan (env : TickEnv) (st : GuildState) : Option Int :=
  let c0 : Option Int :=
    match st.bump_channel_id with
    | some cid => if cid = 0 then none else env.getChannel cid
    | none => none
  match c0 with
  | some c => some c
  | none => env.systemChannel

/-- Role resolution of `_tick` (lines 388-391). -/
def resolveRole (env : TickEnv) (st : GuildState) : Option Int :=
  match st.ping_role_id with
  | some rid => if rid = 0 then none else env.getRole rid
  | none => none

/-- One iteration of `Bremind._tick` (lines 358-402) for one guild state.
Returns the updated state and the effect trace.  All exception paths of the
source (`discord.Forbidden`, `discord.HTTPException`) are caught there, which
this total function reflects by returning the unchanged state. -/
def tickGuild (env : TickEnv) (now : Int) (st : GuildState) :
    GuildState × List Effect :=
  if st.enabled = false then (st, [])
  else
    match st.last_bump_ts with
    | none => (st, renameEffects env st false st.cooldown_s)
    | some last =>
      let left : Int := max 0 (st.cooldown_s - (now - last))
      let rEffs := renameEffects env st (decide (left = 0)) left
      if left = 0 ∧ ¬ st.reminder_sent_for_ts = some last then
        match resolveChan env st with
        | none => (st, rEffs)
        | some c =>
          if env.sendOk then
            ({ st with reminder_sent_for_ts := some last },
              rEffs ++ [Effect.reminderSent c (resolveRole env st), Effect.persist])
          else
            (st, rEffs ++ [Effect.reminderFailed c])
      else (st, rEffs)

/-- A sequence of `_tick` iterations (each with its own environment and
clock reading), with no intervening bump event. -/
def runTicks : List (TickEnv × Int) → GuildState → GuildState × List Effect
  | [], st => (st, [])
  | (env, now) :: rest, st =>
    let r := tickGuild env now st
    let r2 := runTicks rest r.1
    (r2.1, r.2 ++ r2.2)

/-- An incoming chat message as seen by `Bremind.on_message`: whether it is
in a guild, the author id, the channel, the raw content, and the
title/description pairs of its embeds. -/
structure MsgIn where
  in_guild : Bool
  author_id : Int
  channel_id : Int
  content : String
  embeds : List (Option String × Option String)
deriving Repr

/-- The embed-text join of `on_message` (line 320):
`" ".join((e.title or "") + " " + (e.description or "") for e in embeds)`. -/
def embedsText (l : List (Option String × Option String)) : String :=
  String.intercalate " " (l.map (fun e => (e.1.getD "") ++ " " ++ (e.2.getD "")))

/-- The successful-bump heuristic of `on_message` (lines 319-321). -/
def bumpDetected (m : MsgIn) : Bool :=
  containsSub (strLower m.content) "bump done" ||
    containsSub (strLower (embedsText m.embeds)) "bump done"

/-- `Bremind.on_message` (lines 311-355) for the state of the message's
guild: guard chain, then `last_bump_ts := now`, `reminder_sent_for_ts :=
None`, persist, then the optional custom bump reply (a failed send raises
`HTTPException` which the source swallows). -/
def onMessage (m : MsgIn) (now : Int) (st : GuildState) (sendOk : Bool) :
    GuildState × List Effect :=
  if m.in_guild = false then (st, [])
  else if ¬ m.author_id = DISBOARD_BOT_ID then (st, [])
  else if bumpDetected m = false then (st, [])
  else
    let st1 := { st with last_bump_ts := some now, reminder_sent_for_ts := none }
    match st.bump_reply_template with
    | none => (st1, [Effect.persist])
    | some _ =>
      (st1, [Effect.persist,
        if sendOk then Effect.bumpReplySent m.channel_id
        else Effect.bumpReplyFailed m.channel_id])

/-- The store file contents as parsed by `_load_all` plus the per-entry
`int(gid_str)` parse of `Bremind.__init__`: a `none` key models a guild id
string that fails to parse, a top-level `none` models an unreadable or
malformed file (the `except` branch of `_load_all`). -/
def loadAll (raw : Option (List (Option Int × StoredGuild))) :
    List (Option Int × StoredGuild) :=
  raw.getD []

/-- The state-building loop of `Bremind.__init__` (lines 237-242): entries
whose guild id fails to parse are skipped (`except: continue`). -/
def initStates : List (Option Int × StoredGuild) → List (Int × GuildState)
  | [] => []
  | (none, _) :: rest => initStates rest
  | (some gid, d) :: rest => (gid, GuildState.from_dict d) :: initStates rest

/-- `_save_all` of cogs/bremind.py (lines 52-56): the underlying file write
may fail, and the wrapper swallows the failure (`except Exception: pass`). -/
def saveAllCatch (write : Except String Unit) : Unit :=
  match write with
  | .ok u => u
  | .error _ => ()

/-- The condition under which `_tick` can never send a reminder for the
current state: cog disabled, no recorded bump, or the reminder for the
recorded bump already sent. -/
def NoSend (st : GuildState) : Prop :=
  st.enabled = false ∨ st.last_bump_ts = none ∨
    st.reminder_sent_for_ts = st.last_bump_ts

instance (st : GuildState) : Decidable (NoSend st) := by
  unfold NoSend; infer_instance

end Bremind

namespace Presence

/-- A rotation/display item: activity type, text, optional URL
(the `(at, text, url)` tuples of cogs/presence.py). -/
abbrev RotItem := String × String × Option String

/-- One raw rotation entry of presence_rotation.json; `none` fields model a
missing (or JSON-null) key, so `item.get` takes the default. -/
structure RotRaw where
  rtype : Option String
  text : Option String
  url : Option String
deriving Repr, DecidableEq

/-- The whole presence_rotation.json document as read by `_load_state`;
`none` fields model missing keys. -/
structure PresRaw where
  rotation : Option (List RotRaw)
  interval : Option Int
  status : Option String
  activity : Option RotRaw
  autostart : Option Bool
  rotating : Option Bool
deriving Repr, DecidableEq

/-- The per-item parsing of `_load_state` (lines 50-56 and 64-70): type
lowercased and stripped with default `"playing"`, text stripped, falsy URL
dropped. -/
def parseItem (it : RotRaw) : RotItem :=
  (strTrim (strLower (it.rtype.getD "playing")),
    strTrim (it.text.getD ""),
    match it.url with
    | none => none
    | some u => if u = "" then none else some u)

/-- The tuple returned by `_load_state`, with the source's positional
components named. -/
structure Loaded where
  rotation : List RotItem
  interval : Int
  status : String
  activity : Option RotItem
  autostart : Bool
  rotating : Bool
deriving Repr, DecidableEq

/-- `_load_state` of cogs/presence.py (lines 36-79).  A top-level `none`
input models a raised exception (unreadable or corrupt file), which the
source turns into the default tuple.  Rotation entries with empty stripped
text are dropped; the interval is clamped to at least 10; unknown statuses
fall back to `"online"`. -/
def loadState (raw : Option PresRaw) : Loaded :=
  match raw with
  | none => { rotation := [], interval := 60, status := "online",
              activity := none, autostart := false, rotating := false }
  | some raw =>
    let items := (((raw.rotation.getD []).map parseItem).filter
      (fun it => it.2.1 != ""))
    let interval := max 10 (raw.interval.getD 60)
    let status0 := strTrim (strLower (raw.status.getD "online"))
    let status :=
      if status0 = "online" ∨ status0 = "idle" ∨ status0 = "dnd" ∨
          status0 = "invisible" then status0
      else "online"
    let activity :=
      match raw.activity with
      | none => none
      | some a =>
        let p := parseItem a
        if p.2.1 = "" then none else some p
    { rotation := items, interval := interval, status := status,
      activity := activity, autostart := raw.autostart.getD false,
      rotating := raw.rotating.getD false }

/-- `_save_state` of cogs/presence.py (lines 81-105): writes every key, the
interval clamped to at least 10, the activity only when its text is truthy. -/
def saveState (rotation : List RotItem) (interval : Int) (status : String)
    (activity : Option RotItem) (autostart rotating : Bool) : PresRaw :=
  { rotation := some (rotation.map
      (fun it => { rtype := some it.1, text := some it.2.1, url := it.2.2 }))
    interval := some (max 10 interval)
    status := some status
    activity :=
      match activity with
      | none => none
      | some a =>
        if a.2.1 = "" then none
        else some { rtype := some a.1, text := some a.2.1, url := a.2.2 }
    autostart := some autostart
    rotating := some rotating }

/-- Like `_save_all` of bremind, the `try/except: pass` of `_save_state`
around the file write. -/
def saveCatch (write : Except String Unit) : Unit :=
  match write with
  | .ok u => u
  | .error _ => ()

/-- The in-memory state of the `Presence` cog: `self._rotation`,
`self._rot_index`, `self._rot_interval`, `self._status_str`,
`self._activity_tup`, `self._autostart`, and whether the rotator loop is
running. -/
structure PresState where
  rotation : List RotItem
  rotIndex : Nat
  rotInterval : Int
  statusStr : String
  activity : Option RotItem
  autostart : Bool
  running : Bool
deriving Repr, DecidableEq

/-- `Presence.__init__` (lines 133-154) followed by the rotation-resume step
of `on_ready` (lines 186-193): the cursor starts at 0 (it is not persisted),
and the loop starts when `(autostart or last-rotating)` and the rotation is
non-empty. -/
def boot (raw : Option PresRaw) : PresState :=
  let l := loadState raw
  { rotation := l.rotation
    rotIndex := 0
    rotInterval := l.interval
    statusStr := l.status
    activity := l.activity
    autostart := l.autostart
    running := (l.autostart || l.rotating) && !l.rotation.isEmpty }

/-- `self._persist()` (lines 223-225): save the current fields with the
loop-running flag. -/
def persistOf (s : PresState) : PresRaw :=
  saveState s.rotation s.rotInterval s.statusStr s.activity s.autostart s.running

/-- Observable side effects of the presence cog. -/
inductive PEffect where
  | persist
  | applyPres (it : RotItem)
deriving Repr, DecidableEq

/-- The presence updates in an effect trace. -/
def presApplied (l : List PEffect) : List RotItem :=
  l.filterMap (fun e => match e with | .applyPres it => some it | _ => none)

/-- One iteration of `Presence._rotator_loop` (lines 229-239): the loop body
runs only while the task is running; an empty rotation returns immediately;
otherwise the index is reduced modulo the length, the item at it applied,
the index incremented modulo the length, and the state persisted. -/
def rotTick (s : PresState) : PresState × List PEffect :=
  if s.running = false then (s, [])
  else if h : s.rotation = [] then (s, [])
  else
    let i := s.rotIndex % s.rotation.length
    let item := s.rotation.get ⟨i, Nat.mod_lt _ (List.length_pos.mpr h)⟩
    ({ s with rotIndex := (i + 1) % s.rotation.length, activity := some item },
      [PEffect.persist, PEffect.applyPres item])

/-- `n` consecutive rotator iterations. -/
def rotTicks : Nat → PresState → PresState × List PEffect
  | 0, s => (s, [])
  | n + 1, s =>
    let r := rotTick s
    let r2 := rotTicks n r.1
    (r2.1, r.2 ++ r2.2)

/-- The interval computation of `rotstart` (line 330):
`max(10, int(interval_seconds or 60))` with Python falsiness of 0/None. -/
def rotstartInterval (n : Option Int) : Int :=
  max 10 (match n with
    | some v => if v = 0 then 60 else v
    | none => 60)

/-- The `norm(activity_type) or "playing"` computation of `rotadd`. -/
def normType (a : String) : String :=
  let n := strTrim (strLower a)
  if n = "" then "playing" else n

/-- `rotadd` (lines 354-370): append the item, streaming items get the
placeholder URL; persists. -/
def rotAdd (s : PresState) (a text : String) : PresState × List PEffect :=
  let at2 := normType a
  let url := if at2 = "streaming" then some "https://twitch.tv/example" else none
  ({ s with rotation := s.rotation ++ [(at2, text, url)] }, [PEffect.persist])

/-- `rotdel` (lines 384-393): a 1-based index out of range is rejected
without mutation; otherwise the item is removed and the state persisted.
The stored cursor is not adjusted. -/
def rotDel (s : PresState) (idx : Int) : PresState × List PEffect :=
  if idx < 1 ∨ (s.rotation.length : Int) < idx then (s, [])
  else ({ s with rotation := s.rotation.eraseIdx (idx - 1).toNat },
    [PEffect.persist])

/-- `rotstart` (lines 320-337): empty rotation is rejected; otherwise the
interval is clamped, the loop started, and the state persisted. -/
def rotStart (s : PresState) (n : Option Int) : PresState × List PEffect :=
  if s.rotation = [] then (s, [])
  else ({ s with rotInterval := rotstartInterval n, running := true },
    [PEffect.persist])

/-- `rotstop` (lines 344-352): cancel the loop and persist. -/
def rotStop (s : PresState) : PresState × List PEffect :=
  ({ s with running := false }, [PEffect.persist])

/-- The administrative operations and the periodic tick, as one step
alphabet for reachability traces. -/
inductive POp where
  | tick
  | addItem (a text : String)
  | delItem (idx : Int)
  | startRot (n : Option Int)
  | stopRot
deriving Repr, DecidableEq

/-- Apply one operation. -/
def applyOp (s : PresState) : POp → PresState × List PEffect
  | .tick => rotTick s
  | .addItem a t => rotAdd s a t
  | .delItem i => rotDel s i
  | .startRot n => rotStart s n
  | .stopRot => rotStop s

/-- Run a trace of operations from a state. -/
def applyOps (s : PresState) : List POp → PresState
  | [] => s
  | op :: rest => applyOps (applyOp s op).1 rest

/-- A rotation item in the normal form produced by the command surface and
by `_load_state`: type lowercased and stripped, text stripped and
non-empty, URL not the empty string. -/
def normItem (it : RotItem) : Prop :=
  strTrim (strLower it.1) = it.1 ∧ strTrim it.2.1 = it.2.1 ∧ it.2.1 ≠ "" ∧
    it.2.2 ≠ some ""

instance (it : RotItem) : Decidable (normItem it) := by
  unfold normItem; infer_instance

/-- `normItem` lifted to the optional current activity. -/
def normAct : Option RotItem → Prop
  | none => True
  | some it => normItem it

instance (o : Option RotItem) : Decidable (normAct o) := by
  cases o <;> (unfold normAct; infer_instance)

end Presence

open Bremind Presence

/-- Concrete benign tick environment: channel 5 resolves, sends succeed. -/
def envOk : TickEnv :=
  { getChannel := fun i => if i = 5 then some 5 else none
    systemChannel := none
    getRole := fun _ => none
    renameChannel := fun _ => none
    sendOk := true }

/-- Like `envOk` but the send raises (permission / HTTP error). -/
def envFail : TickEnv := { envOk with sendOk := false }

/-- Environment in which neither the configured bump channel nor a system
channel resolves. -/
def envNoChan : TickEnv :=
  { getChannel := fun _ => none
    systemChannel := none
    getRole := fun _ => none
    renameChannel := fun _ => none
    sendOk := true }

/-- A guild state that has recorded a bump at t = 1000 and not yet
reminded, with the default 2 h cooldown. -/
def stReady : GuildState :=
  { bump_channel_id := some 5, last_bump_ts := some 1000, cooldown_s := 7200 }

/-- A guild state whose recorded bump has already been reminded. -/
def stNotified : GuildState :=
  { bump_channel_id := some 5, last_bump_ts := some 1000,
    reminder_sent_for_ts := some 1000, cooldown_s := 7200 }

/-- A DISBOARD "Bump done" success message in channel 7. -/
def msgBump : MsgIn :=
  { in_guild := true, author_id := DISBOARD_BOT_ID, channel_id := 7,
    content := "", embeds := [(some "DISBOARD", some "Bump done! :thumbsup:")] }

/-- A persisted bremind record requesting a 5-second cooldown. -/
def storedCooldown5 : StoredGuild :=
  { enabled := none, bump_channel_id := none, ping_role_id := none,
    cooldown_s := some 5, last_bump_ts := none, reminder_sent_for_ts := none,
    embed := none, rename := none, bump_reply_template := none }

/-- Trace: add three items, start rotation, tick twice, then delete the
first item.  Leaves the stored cursor at 2 over a 2-item list. -/
def opsOob : List POp :=
  [.addItem "playing" "a", .addItem "playing" "b", .addItem "playing" "c",
    .startRot (some 60), .tick, .tick, .delItem 1]

/-- Trace: add two items, start rotation, tick once.  Leaves the stored
cursor at 1. -/
def opsPersist : List POp :=
  [.addItem "playing" "a", .addItem "playing" "b", .startRot (some 60), .tick]

/-- A concrete running presence state in normal form, for witnesses. -/
def presWitState : PresState :=
  { rotation := [("playing", "x", none), ("watching", "y", none)]
    rotIndex := 0, rotInterval := 60, statusStr := "online"
    activity := none, autostart := false, running := true }

/-! ### Helper lemmas about the bremind tick -/

theorem countSent_nil : countSent [] = 0 := rfl

theorem countSent_append (a b : List Effect) :
    countSent (a ++ b) = countSent a + countSent b := by
  simp [countSent, List.countP_append]

theorem countSent_cons (x : Effect) (l : List Effect) :
    countSent (x :: l) = countSent l + (if isSent x then 1 else 0) := by
  simp [countSent, List.countP_cons]

theorem countSent_renameEffects (env : TickEnv) (st : GuildState) (r : Bool)
    (l : Int) : countSent (renameEffects env st r l) = 0 := by
  unfold renameEffects
  cases renameOpt env st r l <;>
    simp [countSent, List.countP_cons, isSent]

theorem tick_nosend (env : TickEnv) (now : Int) (st : GuildState)
    (h : NoSend st) :
    (tickGuild env now st).1 = st ∧ countSent (tickGuild env now st).2 = 0 := by
  unfold tickGuild
  rcases h with he | hl | hs
  · simp [he, countSent_nil]
  · by_cases he : st.enabled = false
    · simp [he, countSent_nil]
    · simp [he, hl, countSent_renameEffects]
  · by_cases he : st.enabled = false
    · simp [he, countSent_nil]
    · cases hl : st.last_bump_ts with
      | none => simp [he, hl, countSent_renameEffects]
      | some last =>
        rw [hl] at hs
        simp [he, hl, hs, countSent_renameEffects]

theorem tick_alt (env : TickEnv) (now : Int) (st : GuildState) :
    ((tickGuild env now st).1 = st ∧ countSent (tickGuild env now st).2 = 0) ∨
      (countSent (tickGuild env now st).2 = 1 ∧
        NoSend (tickGuild env now st).1) := by
  unfold tickGuild
  by_cases he : st.enabled = false
  · left; simp [he, countSent_nil]
  · cases hl : st.last_bump_ts with
    | none => left; simp [he, hl, countSent_renameEffects]
    | some last =>
      by_cases hsent : st.reminder_sent_for_ts = some last
      · left; simp [he, hl, hsent, countSent_renameEffects]
      · by_cases hready : st.cooldown_s ≤ now - last
        · have hz : max 0 (st.cooldown_s - (now - last)) = 0 :=
            max_eq_left (by omega)
          cases hch : resolveChan env st with
          | none =>
            left; simp [he, hl, hz, hsent, hready, hch, countSent_renameEffects]
          | some c =>
            by_cases hs : env.sendOk
            · right
              constructor
              · simp [he, hl, hz, hsent, hready, hch, hs, countSent_append,
                  countSent_renameEffects, countSent_cons, countSent_nil, isSent]
              · simp [he, hl, hz, hsent, hready, hch, hs, NoSend]
            · left
              simp [he, hl, hz, hsent, hready, hch, hs, countSent_append,
                countSent_renameEffects, countSent_cons, countSent_nil, isSent]
        · left; simp [he, hl, hready, hsent, countSent_renameEffects]

theorem runTicks_nosend (envs : List (TickEnv × Int)) :
    ∀ st : GuildState, NoSend st →
      (runTicks envs st).1 = st ∧ countSent (runTicks envs st).2 = 0 := by
  induction envs with
  | nil => intro st _; exact ⟨rfl, rfl⟩
  | cons p rest ih =>
    intro st h
    obtain ⟨env, now⟩ := p
    have ht := tick_nosend env now st h
    have ih2 := ih (tickGuild env now st).1 (by rw [ht.1]; exact h)
    simp only [runTicks]
    constructor
    · rw [ih2.1, ht.1]
    · rw [countSent_append, ht.2, ih2.2]

theorem tick_fires (env : TickEnv) (now : Int) (st : GuildState) (t c : Int)
    (h1 : st.enabled = true) (h2 : st.last_bump_ts = some t)
    (h3 : ¬ st.reminder_sent_for_ts = some t) (h4 : st.cooldown_s ≤ now - t)
    (h5 : resolveChan env st = some c) (h6 : env.sendOk = true) :
    (tickGuild env now st).1 = { st with reminder_sent_for_ts := some t } ∧
      countSent (tickGuild env now st).2 = 1 := by
  have hz : max 0 (st.cooldown_s - (now - t)) = 0 :=
    max_eq_left (by omega)
  unfold tickGuild
  simp [h1, h2, hz, h3, h5, h6, countSent_append, countSent_renameEffects,
    countSent_cons, countSent_nil, isSent]

theorem tick_fail (env : TickEnv) (now : Int) (st : GuildState) (t c : Int)
    (h1 : st.enabled = true) (h2 : st.last_bump_ts = some t)
    (h3 : ¬ st.reminder_sent_for_ts = some t) (h4 : st.cooldown_s ≤ now - t)
    (h5 : resolveChan env st = some c) (h6 : env.sendOk = false) :
    (tickGuild env now st).1 = st ∧ countSent (tickGuild env now st).2 = 0 := by
  have hz : max 0 (st.cooldown_s - (now - t)) = 0 :=
    max_eq_left (by omega)
  unfold tickGuild
  simp [h1, h2, hz, h3, h5, h6, countSent_append, countSent_renameEffects,
    countSent_cons, countSent_nil, isSent]

theorem tick_nochan (env : TickEnv) (now : Int) (st : GuildState) (t : Int)
    (h1 : st.enabled = true) (h2 : st.last_bump_ts = some t)
    (h3 : ¬ st.reminder_sent_for_ts = some t) (h4 : st.cooldown_s ≤ now - t)
    (h5 : resolveChan env st = none) :
    (tickGuild env now st).1 = st ∧ countSent (tickGuild env now st).2 = 0 := by
  have hz : max 0 (st.cooldown_s - (now - t)) = 0 :=
    max_eq_left (by omega)
  unfold tickGuild
  simp [h1, h2, hz, h3, h5, countSent_renameEffects]

theorem from_dict_to_dict_id (st : GuildState) :
    GuildState.from_dict (GuildState.to_dict st) = st := by
  obtain ⟨en, bc, pr, cd, lb, rs, ⟨t1, t2, t3, t4, t5⟩, ⟨r1, r2, r3⟩, tpl⟩ := st
  rfl

/-! ### Claim theorems -/

/-- C1: at-most-once notification.  For every sequence of tick iterations
with no intervening bump event (`on_message` record), the successful
reminder send fires at most once: the send is guarded by
`reminder_sent_for_ts != last_bump_ts`, and a successful send sets
`reminder_sent_for_ts = last_bump_ts` while `last_bump_ts` is never changed
by a tick, so all later ticks are guarded. -/
theorem bremind_at_most_once (envs : List (TickEnv × Int)) (st : GuildState) :
    countSent (runTicks envs st).2 ≤ 1 := by
  induction envs generalizing st with
  | nil => simp [runTicks, countSent_nil]
  | cons p rest ih =>
    obtain ⟨env, now⟩ := p
    simp only [runTicks, countSent_append]
    rcases tick_alt env now st with ⟨h1, h2⟩ | ⟨h2, hns⟩
    · rw [h2, h1]
      simpa using ih st
    · rw [h2, (runTicks_nosend rest _ hns).2]

/-- C2: readiness and exactly-once firing.  The tick computes
`left = max 0 (cooldown_s - (now - last_bump_ts))` and is ready when
`left = 0` (embedded verbatim in `tickGuild`).  Once a bump has been
recorded at `t` and `now - t >= cooldown_s`, a tick whose environment
resolves a target channel and whose send succeeds fires exactly one
successful reminder, records `reminder_sent_for_ts = t`, and every following
tick sequence without a new bump fires none. -/
theorem bremind_ready_fires_exactly_once (env : TickEnv) (now t c : Int)
    (st : GuildState)
    (h1 : st.enabled = true) (h2 : st.last_bump_ts = some t)
    (h3 : ¬ st.reminder_sent_for_ts = some t) (h4 : st.cooldown_s ≤ now - t)
    (h5 : resolveChan env st = some c) (h6 : env.sendOk = true) :
    countSent (tickGuild env now st).2 = 1 ∧
      (tickGuild env now st).1 = { st with reminder_sent_for_ts := some t } ∧
      ∀ envs : List (TickEnv × Int),
        countSent (runTicks envs (tickGuild env now st).1).2 = 0 := by
  have hf := tick_fires env now st t c h1 h2 h3 h4 h5 h6
  refine ⟨hf.2, hf.1, fun envs => ?_⟩
  have hns : NoSend (tickGuild env now st).1 := by
    rw [hf.1]
    right; right; simp [h2]
  exact (runTicks_nosend envs _ hns).2

/-- Witness for C2 at `stReady`, a ready tick at `now = 8600`, followed by a
tick at 8630 which does not fire again. -/
theorem bremind_ready_fires_exactly_once_witness :
    countSent (tickGuild envOk 8600 stReady).2 = 1 ∧
      (tickGuild envOk 8600 stReady).1 =
        { stReady with reminder_sent_for_ts := some 1000 } ∧
      countSent (runTicks [(envOk, 8630)] (tickGuild envOk 8600 stReady).1).2
        = 0 := by
  have h := bremind_ready_fires_exactly_once envOk 8600 1000 5 stReady
    (by decide) (by decide) (by decide) (by decide) (by decide) (by decide)
  exact ⟨h.1, h.2.1, h.2.2 [(envOk, 8630)]⟩

/-- C3: retry on failure.  If the reminder send raises at a ready tick, the
state is left unchanged (in particular `reminder_sent_for_ts` is not set),
no successful notification is counted, the tick function returns normally
(the exception is swallowed), and a later successful tick makes the total
number of successful notifications exactly one. -/
theorem bremind_retry_on_failure (env1 env2 : TickEnv)
    (now1 now2 t c1 c2 : Int) (st : GuildState)
    (h1 : st.enabled = true) (h2 : st.last_bump_ts = some t)
    (h3 : ¬ st.reminder_sent_for_ts = some t)
    (h4 : st.cooldown_s ≤ now1 - t) (h5 : resolveChan env1 st = some c1)
    (h6 : env1.sendOk = false)
    (h7 : st.cooldown_s ≤ now2 - t) (h8 : resolveChan env2 st = some c2)
    (h9 : env2.sendOk = true) :
    (tickGuild env1 now1 st).1 = st ∧
      countSent (tickGuild env1 now1 st).2 = 0 ∧
      countSent (runTicks [(env1, now1), (env2, now2)] st).2 = 1 := by
  have hfail := tick_fail env1 now1 st t c1 h1 h2 h3 h4 h5 h6
  have hfire := tick_fires env2 now2 st t c2 h1 h2 h3 h7 h8 h9
  refine ⟨hfail.1, hfail.2, ?_⟩
  simp only [runTicks, countSent_append, countSent_nil]
  rw [hfail.1, hfail.2, hfire.2]

/-- Witness for C3: a forbidden send at 8600, then a successful retry at
8630; exactly one successful notification overall. -/
theorem bremind_retry_on_failure_witness :
    (tickGuild envFail 8600 stReady).1 = stReady ∧
      countSent (tickGuild envFail 8600 stReady).2 = 0 ∧
      countSent (runTicks [(envFail, 8600), (envOk, 8630)] stReady).2 = 1 :=
  bremind_retry_on_failure envFail envOk 8600 8630 1000 5 5 stReady
    (by decide) (by decide) (by decide) (by decide) (by decide) (by decide)
    (by decide) (by decide) (by decide)

/-- C4: restart round-trip.  Serialising a `GuildState` with `to_dict` and
reloading it with `from_dict` is the identity (in particular it preserves
`last_bump_ts` and `reminder_sent_for_ts`), so after a simulated restart a
scope that had `reminder_sent_for_ts = last_bump_ts` does not fire a
reminder on the next tick. -/
theorem bremind_restart_roundtrip (st : GuildState) (env : TickEnv)
    (now : Int) (h : st.reminder_sent_for_ts = st.last_bump_ts) :
    (GuildState.from_dict (GuildState.to_dict st)).last_bump_ts
        = st.last_bump_ts ∧
      (GuildState.from_dict (GuildState.to_dict st)).reminder_sent_for_ts
        = st.reminder_sent_for_ts ∧
      GuildState.from_dict (GuildState.to_dict st) = st ∧
      countSent
        (tickGuild env now (GuildState.from_dict (GuildState.to_dict st))).2
        = 0 := by
  have hid := from_dict_to_dict_id st
  refine ⟨by rw [hid], by rw [hid], hid, ?_⟩
  rw [hid]
  exact (tick_nosend env now st (Or.inr (Or.inr h))).2

/-- Witness for C4 at `stNotified` (already reminded for its bump): the
reloaded state does not re-notify at a ready time. -/
theorem bremind_restart_roundtrip_witness :
    (GuildState.from_dict (GuildState.to_dict stNotified)).last_bump_ts
        = stNotified.last_bump_ts ∧
      (GuildState.from_dict
          (GuildState.to_dict stNotified)).reminder_sent_for_ts
        = stNotified.reminder_sent_for_ts ∧
      GuildState.from_dict (GuildState.to_dict stNotified) = stNotified ∧
      countSent
        (tickGuild envOk 9000
          (GuildState.from_dict (GuildState.to_dict stNotified))).2 = 0 :=
  bremind_restart_roundtrip stNotified envOk 9000 (by decide)

/-- C10 (implicit): when a scope is ready but no target channel resolves
(no configured bump channel resolves and there is no system channel), the
tick skips the scope: the state, including `reminder_sent_for_ts`, is
unchanged and nothing is sent, and a later tick in an environment where a
channel is available fires the reminder. -/
theorem bremind_skip_no_channel (env env2 : TickEnv) (now now2 t c : Int)
    (st : GuildState)
    (h1 : st.enabled = true) (h2 : st.last_bump_ts = some t)
    (h3 : ¬ st.reminder_sent_for_ts = some t) (h4 : st.cooldown_s ≤ now - t)
    (h5 : resolveChan env st = none)
    (h6 : st.cooldown_s ≤ now2 - t) (h7 : resolveChan env2 st = some c)
    (h8 : env2.sendOk = true) :
    (tickGuild env now st).1 = st ∧
      countSent (tickGuild env now st).2 = 0 ∧
      countSent (tickGuild env2 now2 st).2 = 1 := by
  have hskip := tick_nochan env now st t h1 h2 h3 h4 h5
  have hfire := tick_fires env2 now2 st t c h1 h2 h3 h6 h7 h8
  exact ⟨hskip.1, hskip.2, hfire.2⟩

/-- Witness for C10: with no resolvable channel the ready tick at 8600
skips; with a channel available the tick at 8630 fires. -/
theorem bremind_skip_no_channel_witness :
    (tickGuild envNoChan 8600 stReady).1 = stReady ∧
      countSent (tickGuild envNoChan 8600 stReady).2 = 0 ∧
      countSent (tickGuild envOk 8630 stReady).2 = 1 :=
  bremind_skip_no_channel envNoChan envOk 8600 8630 1000 5 stReady
    (by decide) (by decide) (by decide) (by decide) (by decide) (by decide)
    (by decide) (by decide)

/-- Counterexample to C5 as stated: at a concrete DISBOARD "Bump done"
message with the default guild state (whose `bump_reply_template` is the
default template, not `None`), the event handler itself performs an
outgoing message send — it is not free of external contact. -/
theorem onmessage_external_send_cex :
    (onMessage msgBump 1000 {} true).2.countP isMsgSend = 1 ∧
      Effect.bumpReplySent 7 ∈ (onMessage msgBump 1000 {} true).2 := by
  constructor
  · rfl
  · decide

/-- C5 amended: on a detected bump, the handler sets `last_bump_ts` to the
current time, clears `reminder_sent_for_ts`, and persists; it performs no
external send when `bump_reply_template` is `None`, but when a template is
configured (the default) it additionally attempts exactly one bump-reply
send, whose failure is swallowed. -/
theorem onmessage_record_event_amended (m : MsgIn) (now : Int)
    (st : GuildState) (ok : Bool)
    (h1 : m.in_guild = true) (h2 : m.author_id = DISBOARD_BOT_ID)
    (h3 : bumpDetected m = true) :
    (onMessage m now st ok).1.last_bump_ts = some now ∧
      (onMessage m now st ok).1.reminder_sent_for_ts = none ∧
      (st.bump_reply_template = none →
        (onMessage m now st ok).2 = [Effect.persist]) ∧
      (∀ tpl, st.bump_reply_template = some tpl →
        (onMessage m now st ok).2 =
          [Effect.persist,
            if ok then Effect.bumpReplySent m.channel_id
            else Effect.bumpReplyFailed m.channel_id]) := by
  unfold onMessage
  cases htpl : st.bump_reply_template with
  | none => simp [h1, h2, h3, htpl]
  | some tpl => simp [h1, h2, h3, htpl]

/-- Witness for the amended C5 at the concrete bump message `msgBump`. -/
theorem onmessage_record_event_amended_witness :
    (onMessage msgBump 1000 {} true).1.last_bump_ts = some 1000 ∧
      (onMessage msgBump 1000 {} true).1.reminder_sent_for_ts = none ∧
      (onMessage msgBump 1000 {} true).2 =
        [Effect.persist, Effect.bumpReplySent 7] := by
  have h := onmessage_record_event_amended msgBump 1000 {} true
    (by decide) (by decide) (by decide)
  refine ⟨h.1, h.2.1, ?_⟩
  have h4 := h.2.2.2 DEFAULT_BUMP_REPLY (by decide)
  simpa [msgBump] using h4

/-- Counterexample to C6 as stated: a persisted bremind record with
`cooldown_s = 5` is loaded verbatim by `from_dict` — the cooldown is NOT
clamped up to a 10-second floor. -/
theorem bremind_cooldown_floor_cex :
    (GuildState.from_dict storedCooldown5).cooldown_s = 5 ∧
      ¬ (10 : Int) ≤ (GuildState.from_dict storedCooldown5).cooldown_s := by
  constructor
  · rfl
  · decide

/-- C6 amended: only the presence rotation interval has a 10-second floor —
it is clamped on load, on save, and by the `rotstart` command (requesting
5 s yields 10 s); the bremind `cooldown_s` is stored by `from_dict` exactly
as persisted, with `DEFAULT_COOLDOWN` only for a missing key. -/
theorem presence_interval_floor_amended :
    (∀ raw : PresRaw, 10 ≤ (loadState (some raw)).interval) ∧
      (loadState none).interval = 60 ∧
      (∀ n : Option Int, 10 ≤ rotstartInterval n) ∧
      rotstartInterval (some 5) = 10 ∧
      (∀ (rot : List RotItem) (itv : Int) (stt : String)
        (act : Option RotItem) (au ro : Bool),
        10 ≤ (saveState rot itv stt act au ro).interval.getD 0) ∧
      (∀ d : StoredGuild,
        (GuildState.from_dict d).cooldown_s
          = d.cooldown_s.getD DEFAULT_COOLDOWN) := by
  refine ⟨fun raw => ?_, rfl, fun n => ?_, by decide,
    fun rot itv stt act au ro => ?_, fun d => rfl⟩
  · exact le_max_left _ _
  · exact le_max_left _ _
  · exact le_max_left _ _

/-- Counterexample to the bounds half of C7 as stated: after the reachable
trace add a, add b, add c, start, tick, tick, delete #1, the rotation is
non-empty (2 items) but the stored `rotation_index` is 2, outside
`[0, len)` — `rotdel` does not renormalise the cursor. -/
theorem presence_rot_index_oob_cex :
    (applyOps (boot none) opsOob).rotation ≠ [] ∧
      ¬ ((applyOps (boot none) opsOob).rotIndex <
          (applyOps (boot none) opsOob).rotation.length) := by
  constructor
  · decide
  · decide

/-- C7 amended: with 3 rotation items and the loop running, 5 consecutive
ticks apply items 0,1,2,0,1 in order; and the rotator loop reduces the
cursor modulo the length before use, so after every tick on a non-empty
rotation the stored index is again within `[0, len)` (only `rotdel` can
leave it out of range until the next tick renormalises it). -/
theorem presence_rotation_cursor_amended (a b c : RotItem) (s : PresState)
    (h1 : s.running = true) (h2 : s.rotation ≠ []) :
    presApplied (rotTicks 5
      { rotation := [a, b, c], rotIndex := 0, rotInterval := 60,
        statusStr := "online", activity := none, autostart := false,
        running := true }).2 = [a, b, c, a, b] ∧
      (rotTick s).1.rotIndex < s.rotation.length := by
  constructor
  · simp [rotTicks, rotTick, presApplied]
  · have hpos : 0 < s.rotation.length := List.length_pos.mpr h2
    unfold rotTick
    simp [h1, h2]
    exact Nat.mod_lt _ hpos

/-- Witness for the amended C7 at three concrete items and the concrete
running state `presWitState`. -/
theorem presence_rotation_cursor_amended_witness :
    presApplied (rotTicks 5
      { rotation := [("playing", "x", none), ("watching", "y", none),
          ("listening", "z", none)], rotIndex := 0, rotInterval := 60,
        statusStr := "online", activity := none, autostart := false,
        running := true }).2 =
      [("playing", "x", none), ("watching", "y", none),
        ("listening", "z", none), ("playing", "x", none),
        ("watching", "y", none)] ∧
      (rotTick presWitState).1.rotIndex < presWitState.rotation.length :=
  presence_rotation_cursor_amended ("playing", "x", none)
    ("watching", "y", none) ("listening", "z", none) presWitState
    (by decide) (by decide)

/-- Counterexample to C8 as stated: the persisted record does not contain
`rotation_index`.  After the reachable trace add a, add b, start, tick the
in-memory cursor is 1, but rebooting from the persisted record yields
cursor 0 while the same rotation items are preserved. -/
theorem presence_persist_drops_index_cex :
    (applyOps (boot none) opsPersist).rotIndex = 1 ∧
      (boot (some (persistOf (applyOps (boot none) opsPersist)))).rotIndex
        = 0 ∧
      (boot (some (persistOf (applyOps (boot none) opsPersist)))).rotation
        = (applyOps (boot none) opsPersist).rotation := by
  refine ⟨rfl, rfl, ?_⟩
  decide

theorem parseItem_saveItem (it : RotItem) (h : normItem it) :
    parseItem { rtype := some it.1, text := some it.2.1, url := it.2.2 }
      = it := by
  obtain ⟨xt, xx, xu⟩ := it
  obtain ⟨n1, n2, n3, n4⟩ := h
  unfold parseItem
  simp only [Option.getD_some]
  cases xu with
  | none => simp [n1, n2]
  | some u =>
    have hu : u ≠ "" := fun he => n4 (by rw [he])
    simp [n1, n2, hu]

theorem load_save_rotation (l : List RotItem) (h : ∀ it ∈ l, normItem it) :
    ((l.map (fun it =>
        ({ rtype := some it.1, text := some it.2.1, url := it.2.2 }
          : RotRaw))).map parseItem).filter (fun it => it.2.1 != "") = l := by
  induction l with
  | nil => rfl
  | cons x xs ih =>
    have hx := h x (List.mem_cons_self _ _)
    have hxs := ih fun it hit => h it (List.mem_cons_of_mem _ hit)
    have hpx := parseItem_saveItem x hx
    have hne : (x.2.1 != "") = true := by
      simpa using hx.2.2.1
    rw [List.map_map] at hxs
    simp [hpx, hne, hxs]

/-- C8 amended: the persisted presence record contains the rotation list,
interval, status, activity, autostart and running flags — but NOT
`rotation_index`, which is reset to 0 on reboot; and the rotator loop does
persist the state after advancing the cursor (every mutating operation
emits a persist). -/
theorem presence_persistence_amended (s : PresState)
    (hn : ∀ it ∈ s.rotation, normItem it)
    (hi : 10 ≤ s.rotInterval)
    (hs : s.statusStr = "online" ∨ s.statusStr = "idle" ∨
      s.statusStr = "dnd" ∨ s.statusStr = "invisible")
    (ha : normAct s.activity) :
    (loadState (some (persistOf s))).rotation = s.rotation ∧
      (loadState (some (persistOf s))).interval = s.rotInterval ∧
      (loadState (some (persistOf s))).status = s.statusStr ∧
      (loadState (some (persistOf s))).activity = s.activity ∧
      (loadState (some (persistOf s))).autostart = s.autostart ∧
      (loadState (some (persistOf s))).rotating = s.running ∧
      (boot (some (persistOf s))).rotIndex = 0 ∧
      (s.running = true → s.rotation ≠ [] →
        PEffect.persist ∈ (rotTick s).2) := by
  obtain ⟨rot, idx, itv, stt, act, auto, run⟩ := s
  simp only at hn hi hs ha
  refine ⟨?_, ?_, ?_, ?_, rfl, rfl, rfl, ?_⟩
  · exact load_save_rotation rot hn
  · have h1 : max 10 (max 10 itv) = max 10 itv :=
      max_eq_right (le_max_left _ _)
    have h2 : max 10 itv = itv := max_eq_right hi
    show max 10 (max 10 itv) = itv
    rw [h1, h2]
  · rcases hs with h | h | h | h <;> subst h <;> rfl
  · cases act with
    | none => rfl
    | some a =>
      have hna : normItem a := ha
      have hpx := parseItem_saveItem a hna
      have hne : a.2.1 ≠ "" := hna.2.2.1
      have hact : (persistOf
          { rotation := rot, rotIndex := idx, rotInterval := itv,
            statusStr := stt, activity := some a, autostart := auto,
            running := run }).activity
          = some { rtype := some a.1, text := some a.2.1, url := a.2.2 } := by
        simp only [persistOf, saveState]
        simp [hne]
      simp [loadState, hact, hpx, hne]
  · intro hr hne2
    have hr2 : run = true := hr
    have hne3 : rot ≠ [] := hne2
    unfold rotTick
    simp [hr2, hne3]

/-- Witness for the amended C8 at the concrete state `presWitState`. -/
theorem presence_persistence_amended_witness :
    (loadState (some (persistOf presWitState))).rotation
        = presWitState.rotation ∧
      (loadState (some (persistOf presWitState))).interval
        = presWitState.rotInterval ∧
      (loadState (some (persistOf presWitState))).status
        = presWitState.statusStr ∧
      (loadState (some (persistOf presWitState))).activity
        = presWitState.activity ∧
      (loadState (some (persistOf presWitState))).autostart
        = presWitState.autostart ∧
      (loadState (some (persistOf presWitState))).rotating
        = presWitState.running ∧
      (boot (some (persistOf presWitState))).rotIndex = 0 ∧
      PEffect.persist ∈ (rotTick presWitState).2 := by
  have h := presence_persistence_amended presWitState (by decide) (by decide)
    (by decide) (by decide)
  exact ⟨h.1, h.2.1, h.2.2.1, h.2.2.2.1, h.2.2.2.2.1, h.2.2.2.2.2.1,
    h.2.2.2.2.2.2.1, h.2.2.2.2.2.2.2 (by decide) (by decide)⟩

/-- C9: persistence-error degradation.  An unreadable or malformed bremind
store loads as the empty state map and a per-entry parse failure skips only
that entry; an unreadable presence store loads as the default tuple; and
both save wrappers swallow any write failure, returning normally so the
in-memory state stays authoritative. -/
theorem persistence_error_degradation :
    initStates (loadAll none) = [] ∧
      (∀ (d : StoredGuild) (rest : List (Option Int × StoredGuild)),
        initStates ((none, d) :: rest) = initStates rest) ∧
      loadState none =
        { rotation := [], interval := 60, status := "online",
          activity := none, autostart := false, rotating := false } ∧
      (∀ w : Except String Unit, saveAllCatch w = ()) ∧
      (∀ w : Except String Unit, saveCatch w = ()) := by
  refine ⟨rfl, fun d rest => rfl, rfl, fun w => ?_, fun w => ?_⟩ <;>
    cases w <;> rfl
